import Mathlib

/-!
Shallow embedding of `src/src/lib.rs` of dioxus-markdown: the dioxus
implementation of the rust_web_markdown rendering `Context` protocol,
together with the `CustomComponents` registry and the event-attribution
handler.  Rust values are modelled as follows: the opaque dioxus `Element`
view becomes an inductive tree of tag nodes, fragments and text; the
dioxus `EventHandler` and `Signal` handles become identity numbers
(`Nat`); a Rust function that can panic is embedded with an `Option`
result, `none` standing for abnormal termination; `Rc` pointer identity
is modelled by an explicit allocation identifier carried by the value.
-/

set_option autoImplicit false

namespace DioxusMarkdown

/-- A half-open byte range `start..endPos` into the markdown source
(Rust `core::ops::Range<usize>`; the Rust field `end` is a Lean keyword,
so it is named `endPos` here). -/
structure SourceRange where
  start : Nat
  endPos : Nat
deriving DecidableEq, Repr

/-- Opaque platform mouse event (`dioxus::MouseEvent`), identified by a
number since the embedding never inspects it. -/
structure MouseEvent where
  id : Nat
deriving DecidableEq, Repr

/-- From `src/src/lib.rs` lines 78-87: the attributed event delivered to
the user `on_click` callback, pairing the original mouse event with the
source byte range of the clicked markdown node. -/
structure MarkdownMouseEvent where
  mouse_event : MouseEvent
  position : SourceRange
deriving DecidableEq, Repr

/-- The view type produced by the context (`dioxus::Element`).  A node
carries its HTML tag, the rendered `style` and `class` strings, the
optional click handler identity, any extra attributes (such as `start`
on `ol` or `href` on `a`), and its child view; `voidNode` is a childless
element (`hr`, `br`, `img`, `input`); `rawSpan` is the
`dangerous_inner_html` span; `fragment` is bare concatenation with no
wrapping element. -/
inductive Element where
  | node (tag : String) (style : String) (className : String)
      (onclick : Option Nat) (extraAttrs : List (String × String))
      (child : Element)
  | voidNode (tag : String) (style : String) (className : String)
      (onclick : Option Nat) (extraAttrs : List (String × String))
  | rawSpan (innerHtml : String) (style : String) (className : String)
      (onclick : Option Nat)
  | fragment (children : List Element)
  | text (s : String)

/-- Attribute bundle handed to each element constructor
(`rust_web_markdown::ElementAttributes`): ordered class list, optional
inline style, optional click handler (handler identity). -/
structure ElementAttributes where
  classes : List String
  style : Option String
  on_click : Option Nat

/-- Modelled from the spec: the error taxonomy of
`rust_web_markdown::ComponentCreationError` (section 7 of the spec); the
defining crate is not under `src/`. -/
inductive ComponentCreationError where
  | UnknownComponent (name : String)
  | MissingAttribute (name : String)
  | AttributeParseError (name : String) (rawValue : String)
deriving DecidableEq, Repr

/-- Props handed to a registered custom component
(`rust_web_markdown::MdComponentProps<Element>`): raw attribute strings
in source order plus the already-rendered children view. -/
structure MdComponentProps where
  attributes : List (String × String)
  children : Option Element

/-- A registered component rendering function:
`Box<dyn Fn(MdComponentProps) -> Result<Element, ComponentCreationError>>`. -/
def ComponentFn : Type :=
  MdComponentProps → Except ComponentCreationError Element

/-- Lookup in a `BTreeMap` modelled as an association list with unique
keys (`get`). -/
def btreeGet {α : Type} : List (String × α) → String → Option α
  | [], _ => none
  | (k, v) :: rest, name => if name = k then some v else btreeGet rest name

/-- Key-replacing insertion, the effect of `BTreeMap::insert` on the
entry list: an existing binding of the key is overwritten. -/
def btreeInsert {α : Type} : List (String × α) → String → α → List (String × α)
  | [], k, v => [(k, v)]
  | (k2, v2) :: rest, k, v =>
      if k = k2 then (k, v) :: rest else (k2, v2) :: btreeInsert rest k v

/-- Sequential insertion of an entry sequence, the effect of
`BTreeMap::from_iter` (each entry inserted in order, later entries
overwriting earlier ones with the same key). -/
def btreeFromIter {α : Type} (entries : List (String × α)) : List (String × α) :=
  entries.foldl (fun m e => btreeInsert m e.1 e.2) []

/-- From `src/src/lib.rs` lines 95-101: the component store, an
`Rc<BTreeMap<&str, Box<dyn Fn ...>>>`.  The `Rc` allocation is modelled
by the explicit identifier `rcId`, so that `Rc::ptr_eq` becomes equality
of `rcId`. -/
structure CustomComponents where
  rcId : Nat
  map : List (String × ComponentFn)

/-- From `src/src/lib.rs` lines 105-109: `PartialEq for CustomComponents`
is `Rc::ptr_eq`, i.e. shared-allocation identity, not structural
comparison of the map. -/
def CustomComponents.eq (a b : CustomComponents) : Bool :=
  a.rcId == b.rcId

/-- `Clone for CustomComponents` (derived): cloning an `Rc` yields a
handle to the same allocation, so the clone is the identical model
value. -/
def CustomComponents.clone (a : CustomComponents) : CustomComponents :=
  a

/-- From `src/src/lib.rs` lines 117-124: `CustomComponents::new` builds
the registry by `BTreeMap::from_iter` over the entry iterator.  The
fresh `Rc` allocation performed by `Rc::new` is modelled by the caller
supplying the allocation identifier `freshId`; two separate `new` calls
receive distinct identifiers. -/
def CustomComponents.new (entries : List (String × ComponentFn)) (freshId : Nat) :
    CustomComponents :=
  { rcId := freshId, map := btreeFromIter entries }

/-- Description of a link for the `render_links` override
(`rust_web_markdown::LinkDescription<Element>`). -/
structure LinkDescription where
  url : String
  title : Option String
  content : Element

/-- From `src/src/lib.rs` lines 25-58: the `MdProps` component
properties.  Handler and signal handles are identity numbers;
`parse_options` is the opaque passthrough parser option set. -/
structure MdProps where
  src : String
  on_click : Option Nat
  render_links : Option (LinkDescription → Element)
  theme : Option String
  wikilinks : Bool
  hard_line_breaks : Bool
  parse_options : Option Nat
  components : CustomComponents
  frontmatter : Option Nat

/-- The tag set of `rust_web_markdown::HtmlElement` as matched in
`el_with_attributes`. -/
inductive HtmlElement where
  | Div
  | Span
  | Paragraph
  | BlockQuote
  | Ul
  | Ol (start : Int)
  | Li
  | Heading (level : Nat)
  | Table
  | Thead
  | Trow
  | Tcell
  | Italics
  | Bold
  | StrikeThrough
  | Pre
  | Code

/-- From `src/src/lib.rs` lines 143-225: `el_with_attributes` renders the
class list joined with single spaces, the style (empty when absent) and
the click handler, then matches the element kind to a single `rsx!`
production.  `Heading(_)` outside 1-6 executes `panic!()`, embedded as
`none`.  Note that the `Pre` arm of the source produces a `p` node, the
same tag as `Paragraph`. -/
def el_with_attributes (e : HtmlElement) (inside : Element)
    (attributes : ElementAttributes) : Option Element :=
  let className := String.intercalate " " attributes.classes
  let style := attributes.style.getD ""
  let onclick := attributes.on_click
  match e with
  | .Div => some (.node "div" style className onclick [] inside)
  | .Span => some (.node "span" style className onclick [] inside)
  | .Paragraph => some (.node "p" style className onclick [] inside)
  | .BlockQuote => some (.node "blockquote" style className onclick [] inside)
  | .Ul => some (.node "ul" style className onclick [] inside)
  | .Ol x => some (.node "ol" style className onclick [("start", toString x)] inside)
  | .Li => some (.node "li" style className onclick [] inside)
  | .Heading 1 => some (.node "h1" style className onclick [] inside)
  | .Heading 2 => some (.node "h2" style className onclick [] inside)
  | .Heading 3 => some (.node "h3" style className onclick [] inside)
  | .Heading 4 => some (.node "h4" style className onclick [] inside)
  | .Heading 5 => some (.node "h5" style className onclick [] inside)
  | .Heading 6 => some (.node "h6" style className onclick [] inside)
  | .Heading _ => none
  | .Table => some (.node "table" style className onclick [] inside)
  | .Thead => some (.node "thead" style className onclick [] inside)
  | .Trow => some (.node "tr" style className onclick [] inside)
  | .Tcell => some (.node "td" style className onclick [] inside)
  | .Italics => some (.node "i" style className onclick [] inside)
  | .Bold => some (.node "b" style className onclick [] inside)
  | .StrikeThrough => some (.node "s" style className onclick [] inside)
  | .Pre => some (.node "p" style className onclick [] inside)
  | .Code => some (.node "code" style className onclick [] inside)

/-- The heading tag the source produces for each in-range level (used to
state distinctness of heading tags). -/
def headingTagStr : Nat → String
  | 1 => "h1"
  | 2 => "h2"
  | 3 => "h3"
  | 4 => "h4"
  | 5 => "h5"
  | 6 => "h6"
  | _ => ""

/-- From `src/src/lib.rs` lines 227-247: `el_span_with_inner_html`
produces a span carrying `dangerous_inner_html`. -/
def el_span_with_inner_html (inner_html : String)
    (attributes : ElementAttributes) : Element :=
  .rawSpan inner_html (attributes.style.getD "")
    (String.intercalate " " attributes.classes) attributes.on_click

/-- From `src/src/lib.rs` lines 249-262: `el_hr`. -/
def el_hr (attributes : ElementAttributes) : Element :=
  .voidNode "hr" (attributes.style.getD "")
    (String.intercalate " " attributes.classes) attributes.on_click []

/-- From `src/src/lib.rs` lines 264-266: `el_br`. -/
def el_br : Element :=
  .voidNode "br" "" "" none []

/-- From `src/src/lib.rs` lines 268-270: `el_fragment` renders the child
sequence directly (the `rsx!` body is just the children iterator), a
bare fragment with no wrapping element. -/
def el_fragment (children : List Element) : Element :=
  .fragment children

/-- From `src/src/lib.rs` lines 272-274: `el_a`. -/
def el_a (children : Element) (href : String) : Element :=
  .node "a" "" "" none [("href", href)] children

/-- From `src/src/lib.rs` lines 276-281: `el_img`. -/
def el_img (src : String) (alt : String) : Element :=
  .voidNode "img" "" "" none [("src", src), ("alt", alt)]

/-- From `src/src/lib.rs` lines 283-285: `el_text`. -/
def el_text (t : String) : Element :=
  .text t

/-- From `src/src/lib.rs` lines 316-335: `el_input_checkbox`. -/
def el_input_checkbox (checked : Bool) (attributes : ElementAttributes) :
    Element :=
  .voidNode "input" (attributes.style.getD "")
    (String.intercalate " " attributes.classes) attributes.on_click
    [("type", "checkbox"), ("checked", toString checked)]

/-- Observable effect of one invocation of the handler built by
`make_md_handler`: whether `stop_propagation` was called on the event,
and, when forwarding happened, which user callback (by identity)
received which attributed event. -/
structure MdHandlerResult where
  stopped_propagation : Bool
  forwarded : Option (Nat × MarkdownMouseEvent)
deriving DecidableEq, Repr

/-- From `src/src/lib.rs` lines 352-371: `make_md_handler` reads the
`on_click` callback from the props signal when the handler is CREATED
(line 357 runs before the closure is built), then returns a closure
that, on a mouse event, stops propagation when the flag is set, builds
the `MarkdownMouseEvent` from the captured range, and forwards it to
the captured callback when one was present.  The first argument of the
returned function is the props live at invocation time; the source
closure never reads them, which the embedding makes explicit by
ignoring that argument. -/
def make_md_handler (propsAtCreation : MdProps) (position : SourceRange)
    (stop_propagation : Bool) : MdProps → MouseEvent → MdHandlerResult :=
  let on_click := propsAtCreation.on_click
  fun _propsAtInvocation e =>
    { stopped_propagation := stop_propagation
      forwarded := on_click.map
        (fun cb => (cb, { mouse_event := e, position := position })) }

/-- From `src/src/lib.rs` lines 373-379: `set_frontmatter` writes the
text into the frontmatter signal when one is configured and does
nothing otherwise.  The state passed and returned is the value held by
the host frontmatter sink. -/
def set_frontmatter (props : MdProps) (sinkValue : String) (frontmatter : String) :
    String :=
  match props.frontmatter with
  | some _ => frontmatter
  | none => sinkValue

/-- From `src/src/lib.rs` lines 381-383: `has_custom_links`. -/
def has_custom_links (props : MdProps) : Bool :=
  props.render_links.isSome

/-- From `src/src/lib.rs` lines 385-390: `render_links` calls
`.unwrap()` on the optional override callback and wraps its result in
`Ok`; with no callback registered the `unwrap` panics, embedded as
`none`. -/
def render_links (props : MdProps) (link : LinkDescription) :
    Option (Except String Element) :=
  match props.render_links with
  | some f => some (Except.ok (f link))
  | none => none

/-- From `src/src/lib.rs` lines 392-394: `has_custom_component`. -/
def has_custom_component (props : MdProps) (name : String) : Bool :=
  (btreeGet props.components.map name).isSome

/-- From `src/src/lib.rs` lines 396-404: `render_custom_component` calls
`.unwrap()` on the registry lookup and applies the function; with the
name unregistered the `unwrap` panics, embedded as `none`. -/
def render_custom_component (props : MdProps) (name : String)
    (input : MdComponentProps) :
    Option (Except ComponentCreationError Element) :=
  match btreeGet props.components.map name with
  | some f => some (f input)
  | none => none

/-- Modelled from the spec: the custom element dispatch loop of section
4.4 lives in the external `rust_web_markdown::render_markdown` engine,
which is not under `src/`.  Per the spec it looks the name up in the
registry; if absent the render fails with
`ComponentCreationError::UnknownComponent(name)`, otherwise the
registered function is invoked and its result propagated unchanged. -/
def dispatch_custom_component (props : MdProps) (name : String)
    (input : MdComponentProps) : Except ComponentCreationError Element :=
  match btreeGet props.components.map name with
  | none => Except.error (ComponentCreationError.UnknownComponent name)
  | some f => f input

/-- The children of a fragment view (empty for any non-fragment view). -/
def Element.fragmentChildren : Element → List Element
  | .fragment cs => cs
  | _ => []

/-- Whether a view is a wrapping element (a tag node, void node or raw
span), as opposed to a bare fragment or text run. -/
def Element.isWrappingElement : Element → Bool
  | .node .. => true
  | .voidNode .. => true
  | .rawSpan .. => true
  | .fragment _ => false
  | .text _ => false

/-- The binding carried by the last occurrence of a key in an entry
sequence (the reference semantics for last-write-wins construction). -/
def lastBinding {α : Type} (entries : List (String × α)) (name : String) :
    Option α :=
  entries.foldl (fun acc e => if e.1 = name then some e.2 else acc) none

/-- Lookup after a key-replacing insertion finds the new value exactly
at the inserted key. -/
theorem btreeGet_btreeInsert {α : Type} (m : List (String × α)) (k : String)
    (v : α) (k2 : String) :
    btreeGet (btreeInsert m k v) k2 = if k2 = k then some v else btreeGet m k2 := by
  induction m with
  | nil => simp [btreeInsert, btreeGet]
  | cons p rest ih =>
    obtain ⟨k3, v3⟩ := p
    by_cases h : k = k3
    · subst h
      by_cases h2 : k2 = k <;> simp [btreeInsert, btreeGet, h2]
    · by_cases h2 : k2 = k3 <;> by_cases h3 : k2 = k <;>
        simp_all [btreeInsert, btreeGet]

/-- Lookup after folding a sequence of key-replacing insertions is
decided by the last occurrence of the key in the sequence, falling back
to the initial map. -/
theorem btreeGet_foldl_btreeInsert {α : Type} (l : List (String × α))
    (m : List (String × α)) (k : String) :
    btreeGet (l.foldl (fun m2 e => btreeInsert m2 e.1 e.2) m) k
      = l.foldl (fun acc e => if e.1 = k then some e.2 else acc) (btreeGet m k) := by
  induction l generalizing m with
  | nil => rfl
  | cons e tl ih =>
    simp only [List.foldl]
    rw [ih, btreeGet_btreeInsert]
    by_cases h : e.1 = k
    · simp [h]
    · have h2 : ¬k = e.1 := fun h3 => h h3.symm
      simp [h, h2]

/-- A sample empty registry (allocation identifier 0), used by concrete
witnesses. -/
def sampleComponents : CustomComponents :=
  CustomComponents.new [] 0

/-- Sample props with no callbacks, no overrides, no frontmatter sink
and an empty registry. -/
def propsBase : MdProps :=
  MdProps.mk "" none none none false false none sampleComponents none

/-- Sample props whose `on_click` callback has identity 1. -/
def propsClickA : MdProps :=
  MdProps.mk "" (some 1) none none false false none sampleComponents none

/-- Sample props whose `on_click` callback has identity 2. -/
def propsClickB : MdProps :=
  MdProps.mk "" (some 2) none none false false none sampleComponents none

/-- Sample props with a registered link-override callback that renders
every link as the text view `L`. -/
def propsWithLinks : MdProps :=
  MdProps.mk "" none (some (fun _ => Element.text "L")) none false false none
    sampleComponents none

/-- Sample link description. -/
def sampleLink : LinkDescription :=
  LinkDescription.mk "u" none (Element.text "c")

/-- Sample props for an unregistered custom component occurrence. -/
def sampleInput : MdComponentProps :=
  MdComponentProps.mk [] none

/-- C5: `CustomComponents` equality is shared-instance identity: every
registry (and its clone, which shares the allocation) compares equal to
itself, and two registries produced by separate `new` calls — distinct
allocations — compare unequal whatever their entry lists, identical
lists included. -/
theorem custom_components_eq_is_identity :
    (∀ c : CustomComponents,
       CustomComponents.eq c c = true
       ∧ CustomComponents.eq (CustomComponents.clone c) c = true)
    ∧ ∀ (e1 e2 : List (String × ComponentFn)) (i j : Nat), i ≠ j →
        CustomComponents.eq (CustomComponents.new e1 i) (CustomComponents.new e2 j)
          = false := by
  constructor
  · intro c
    constructor <;> simp [CustomComponents.eq, CustomComponents.clone]
  · intro e1 e2 i j hij
    simp [CustomComponents.eq, CustomComponents.new, hij]

/-- Witness for C5 at concrete registries: allocations 0 and 1 with the
same (empty) entry list compare unequal; allocation 0 compares equal to
itself. -/
theorem custom_components_eq_is_identity_witness :
    (0 : Nat) ≠ 1
    ∧ CustomComponents.eq (CustomComponents.new [] 0) (CustomComponents.new [] 1)
        = false
    ∧ CustomComponents.eq (CustomComponents.new [] 0) (CustomComponents.new [] 0)
        = true :=
  ⟨by decide,
   custom_components_eq_is_identity.2 [] [] 0 1 (by decide),
   (custom_components_eq_is_identity.1 (CustomComponents.new [] 0)).1⟩

/-- C8: `CustomComponents::new` builds the map by ordered insertion
(`BTreeMap::from_iter`), so lookup of a name returns exactly the
function paired with the LAST occurrence of that name in the entry
sequence (last write wins), and `none` when the name never occurs. -/
theorem custom_components_new_last_write_wins
    (entries : List (String × ComponentFn)) (name : String) (i : Nat) :
    btreeGet (CustomComponents.new entries i).map name = lastBinding entries name := by
  unfold CustomComponents.new btreeFromIter lastBinding
  rw [btreeGet_foldl_btreeInsert]
  rfl

/-- C9: `set_frontmatter` is last-write-wins — two writes in sequence
leave exactly the second value in the host sink, the same state as the
second write alone — and when no frontmatter sink is configured the
write leaves the sink untouched. -/
theorem set_frontmatter_last_write_wins (props : MdProps) (s a b : String) :
    set_frontmatter props (set_frontmatter props s a) b = set_frontmatter props s b
    ∧ (props.frontmatter = none → set_frontmatter props s b = s) := by
  constructor
  · unfold set_frontmatter
    cases props.frontmatter <;> rfl
  · intro h
    unfold set_frontmatter
    rw [h]

/-- Witness for C9 at concrete props with no frontmatter sink: the
double write equals the single write, and the sink value is untouched. -/
theorem set_frontmatter_last_write_wins_witness :
    set_frontmatter propsBase (set_frontmatter propsBase "s0" "a") "b"
      = set_frontmatter propsBase "s0" "b"
    ∧ propsBase.frontmatter = none
    ∧ set_frontmatter propsBase "s0" "b" = "s0" :=
  ⟨(set_frontmatter_last_write_wins propsBase "s0" "a" "b").1,
   rfl,
   (set_frontmatter_last_write_wins propsBase "s0" "a" "b").2 rfl⟩

/-- C1 (amended): for a custom-component occurrence whose name is not in
the registry, the dispatch loop (which consults the registry before
invoking anything) fails the render with the value
`Err(ComponentCreationError::UnknownComponent(name))`; the
`render_custom_component` method itself, however, applied directly to an
unregistered name, terminates abnormally (the `unwrap` on the failed
lookup panics) rather than returning that `Err`. -/
theorem unknown_component_fails_render (props : MdProps) (name : String)
    (input : MdComponentProps)
    (h : has_custom_component props name = false) :
    dispatch_custom_component props name input
      = Except.error (ComponentCreationError.UnknownComponent name)
    ∧ render_custom_component props name input = none := by
  unfold has_custom_component at h
  unfold dispatch_custom_component render_custom_component
  cases hg : btreeGet props.components.map name with
  | none => simp
  | some f => rw [hg] at h; simp at h

/-- Witness for C1 at concrete props with an empty registry and the
unregistered name `x`. -/
theorem unknown_component_fails_render_witness :
    has_custom_component propsBase "x" = false
    ∧ (dispatch_custom_component propsBase "x" sampleInput
         = Except.error (ComponentCreationError.UnknownComponent "x")
       ∧ render_custom_component propsBase "x" sampleInput = none) :=
  ⟨rfl, unknown_component_fails_render propsBase "x" sampleInput rfl⟩

/-- Counterexample to C1 as stated: `render_custom_component` applied to
the unregistered name `x` does not yield
`Err(UnknownComponent("x"))` — it fails to return at all (the `unwrap`
panics, `none` in the embedding). -/
theorem render_custom_component_unregistered_panics :
    render_custom_component propsBase "x" sampleInput
      ≠ some (Except.error (ComponentCreationError.UnknownComponent "x"))
    ∧ render_custom_component propsBase "x" sampleInput = none := by
  constructor
  · intro h
    exact Option.noConfusion h
  · rfl

/-- C10: whenever a link-override callback is registered
(`has_custom_links` is true), `render_links` returns `Ok` of that
callback's result and never uses the string error channel; when no
callback is registered, `render_links` terminates abnormally (the
`unwrap` panics, `none` in the embedding) instead of returning any
`Result`. -/
theorem render_links_ok_or_panics (props : MdProps) (link : LinkDescription) :
    (has_custom_links props = true →
       ∃ f, props.render_links = some f
         ∧ render_links props link = some (Except.ok (f link)))
    ∧ (has_custom_links props = false → render_links props link = none)
    ∧ ∀ s, render_links props link ≠ some (Except.error s) := by
  unfold has_custom_links render_links
  cases hr : props.render_links with
  | none =>
    refine ⟨?_, ?_, ?_⟩
    · intro h; simp at h
    · intro _; rfl
    · intro s h; exact Option.noConfusion h
  | some f =>
    refine ⟨?_, ?_, ?_⟩
    · intro _; exact ⟨f, rfl, rfl⟩
    · intro h; simp at h
    · intro s h
      have h2 : Except.ok (ε := String) (f link) = Except.error s :=
        Option.some.inj h
      exact Except.noConfusion h2

/-- Witness for C10 at concrete props: with the sample override
registered the result is `Ok` of the callback output; with no override
registered the call panics (`none`). -/
theorem render_links_ok_or_panics_witness :
    (has_custom_links propsWithLinks = true
     ∧ ∃ f, propsWithLinks.render_links = some f
         ∧ render_links propsWithLinks sampleLink = some (Except.ok (f sampleLink)))
    ∧ (has_custom_links propsBase = false
       ∧ render_links propsBase sampleLink = none) :=
  ⟨⟨rfl, (render_links_ok_or_panics propsWithLinks sampleLink).1 rfl⟩,
   ⟨rfl, (render_links_ok_or_panics propsBase sampleLink).2.1 rfl⟩⟩

/-- C2 (amended): the handler returned by `make_md_handler` forwards the
attributed event to the `on_click` callback that was read from the
props signal when `make_md_handler` ran (a snapshot taken at
handler-creation time); the props live at invocation time are never
consulted, so a callback change between creation and the click is not
observed by the handler. -/
theorem make_md_handler_snapshots_callback (pCreate pInvoke : MdProps)
    (position : SourceRange) (stop_propagation : Bool) (e : MouseEvent) :
    (∀ pInvoke2 : MdProps,
       make_md_handler pCreate position stop_propagation pInvoke e
         = make_md_handler pCreate position stop_propagation pInvoke2 e)
    ∧ (make_md_handler pCreate position stop_propagation pInvoke e).forwarded
        = pCreate.on_click.map
            (fun cb => (cb, MarkdownMouseEvent.mk e position)) :=
  ⟨fun _ => rfl, rfl⟩

/-- Counterexample to C2 as stated: a handler created while callback 1
was the current `on_click`, invoked while callback 2 is current,
forwards the event to callback 1, not to the newly current callback 2. -/
theorem make_md_handler_stale_callback :
    propsClickA.on_click = some 1
    ∧ propsClickB.on_click = some 2
    ∧ (make_md_handler propsClickA (SourceRange.mk 2 5) false propsClickB
         (MouseEvent.mk 9)).forwarded
        ≠ propsClickB.on_click.map
            (fun cb => (cb, MarkdownMouseEvent.mk (MouseEvent.mk 9)
                              (SourceRange.mk 2 5))) := by
  refine ⟨rfl, rfl, ?_⟩
  decide

/-- C6: for every range and flag, one invocation of the handler built by
`make_md_handler` (with unchanged props) halts propagation exactly when
`stop_propagation` is set, forwards to the present `on_click` callback
the single `MarkdownMouseEvent` packaging the raw event with the given
range, and forwards nothing when no callback is present; every
forwarded event carries exactly the given range as its `position`. -/
theorem make_md_handler_behaviour (props : MdProps) (position : SourceRange)
    (stop_propagation : Bool) (e : MouseEvent) :
    (make_md_handler props position stop_propagation props e).stopped_propagation
      = stop_propagation
    ∧ (make_md_handler props position stop_propagation props e).forwarded
        = props.on_click.map (fun cb => (cb, MarkdownMouseEvent.mk e position))
    ∧ ∀ cb ev,
        (make_md_handler props position stop_propagation props e).forwarded
          = some (cb, ev) → ev.position = position := by
  refine ⟨rfl, rfl, ?_⟩
  intro cb ev h
  have h0 : props.on_click.map (fun c => (c, MarkdownMouseEvent.mk e position))
      = some (cb, ev) := h
  cases hc : props.on_click with
  | none => rw [hc] at h0; exact Option.noConfusion h0
  | some c =>
    rw [hc] at h0
    have h2 := Option.some.inj h0
    have h3 : MarkdownMouseEvent.mk e position = ev := congrArg Prod.snd h2
    rw [← h3]

/-- Witness for C6 at concrete props with callback 1, range 2..5 and
flag set: propagation is stopped, the forwarded event reaches callback 1
and carries the range as its position. -/
theorem make_md_handler_behaviour_witness :
    (make_md_handler propsClickA (SourceRange.mk 2 5) true propsClickA
       (MouseEvent.mk 9)).stopped_propagation = true
    ∧ (make_md_handler propsClickA (SourceRange.mk 2 5) true propsClickA
         (MouseEvent.mk 9)).forwarded
        = some (1, MarkdownMouseEvent.mk (MouseEvent.mk 9) (SourceRange.mk 2 5))
    ∧ (MarkdownMouseEvent.mk (MouseEvent.mk 9) (SourceRange.mk 2 5)).position
        = SourceRange.mk 2 5 :=
  ⟨(make_md_handler_behaviour propsClickA (SourceRange.mk 2 5) true
      (MouseEvent.mk 9)).1,
   ((make_md_handler_behaviour propsClickA (SourceRange.mk 2 5) true
      (MouseEvent.mk 9)).2.1).trans rfl,
   (make_md_handler_behaviour propsClickA (SourceRange.mk 2 5) true
      (MouseEvent.mk 9)).2.2 1
     (MarkdownMouseEvent.mk (MouseEvent.mk 9) (SourceRange.mk 2 5)) rfl⟩

/-- C3: for every heading level 1-6, `el_with_attributes` returns
normally with the heading node of exactly that level, distinct levels
producing distinct tags; for any level outside 1-6 it terminates
abnormally (the `panic!()` arm, `none` in the embedding) rather than
returning a view or a recoverable error. -/
theorem heading_levels_routing (n : Nat) (inside : Element)
    (a : ElementAttributes) :
    (1 ≤ n ∧ n ≤ 6 →
       el_with_attributes (.Heading n) inside a
         = some (.node (headingTagStr n) (a.style.getD "")
             (String.intercalate " " a.classes) a.on_click [] inside))
    ∧ (∀ m1 m2 : Nat, 1 ≤ m1 ∧ m1 ≤ 6 → 1 ≤ m2 ∧ m2 ≤ 6 → m1 ≠ m2 →
         headingTagStr m1 ≠ headingTagStr m2)
    ∧ (¬(1 ≤ n ∧ n ≤ 6) →
         el_with_attributes (.Heading n) inside a = none) := by
  refine ⟨?_, ?_, ?_⟩
  · rintro ⟨h1, h6⟩
    interval_cases n <;> rfl
  · rintro m1 m2 ⟨a1, b1⟩ ⟨a2, b2⟩ hne
    interval_cases m1 <;> interval_cases m2 <;> simp_all [headingTagStr]
  · intro h
    rcases n with _ | _ | _ | _ | _ | _ | _ | k
    · rfl
    · exact absurd (by omega) h
    · exact absurd (by omega) h
    · exact absurd (by omega) h
    · exact absurd (by omega) h
    · exact absurd (by omega) h
    · exact absurd (by omega) h
    · rfl

/-- Witness for C3 at concrete inputs: level 3 renders the `h3` node,
level 7 terminates abnormally, and the level-2 and level-5 tags differ. -/
theorem heading_levels_routing_witness :
    (1 ≤ 3 ∧ 3 ≤ 6)
    ∧ el_with_attributes (.Heading 3) (Element.text "x")
        (ElementAttributes.mk [] none none)
        = some (.node (headingTagStr 3)
            ((ElementAttributes.mk [] none none).style.getD "")
            (String.intercalate " " (ElementAttributes.mk [] none none).classes)
            (ElementAttributes.mk [] none none).on_click [] (Element.text "x"))
    ∧ ¬(1 ≤ 7 ∧ 7 ≤ 6)
    ∧ el_with_attributes (.Heading 7) (Element.text "x")
        (ElementAttributes.mk [] none none) = none
    ∧ headingTagStr 2 ≠ headingTagStr 5 :=
  ⟨by decide,
   (heading_levels_routing 3 (Element.text "x")
      (ElementAttributes.mk [] none none)).1 (by decide),
   by decide,
   (heading_levels_routing 7 (Element.text "x")
      (ElementAttributes.mk [] none none)).2.2 (by decide),
   (heading_levels_routing 0 (Element.text "x")
      (ElementAttributes.mk [] none none)).2.1 2 5 (by decide) (by decide)
     (by decide)⟩

/-- C4 fails on the code: the `Pre` arm of `el_with_attributes` produces
a `p` node, exactly the view the `Paragraph` arm produces, so the
preformatted-block variant does NOT yield a structural tag distinct from
the paragraph one.  This theorem evaluates the code at the failing
input. -/
theorem pre_collapses_to_paragraph (inside : Element) (a : ElementAttributes) :
    el_with_attributes .Pre inside a = el_with_attributes .Paragraph inside a
    ∧ el_with_attributes .Pre inside a
        = some (.node "p" (a.style.getD "")
            (String.intercalate " " a.classes) a.on_click [] inside) :=
  ⟨rfl, rfl⟩

/-- C7: `el_fragment` is bare concatenation: the empty sequence yields
the empty childless fragment, `[a, b]` yields the fragment holding
exactly `a` then `b`, and in general the fragment's children are the
input sequence itself (order and multiplicity preserved) with no
wrapping element around them. -/
theorem el_fragment_is_concatenation (l : List Element) :
    el_fragment l = Element.fragment l
    ∧ (el_fragment l).fragmentChildren = l
    ∧ (el_fragment l).isWrappingElement = false
    ∧ (el_fragment []).fragmentChildren = ([] : List Element)
    ∧ ∀ a b : Element, (el_fragment [a, b]).fragmentChildren = [a, b] :=
  ⟨rfl, rfl, rfl, rfl, fun _ _ => rfl⟩

end DioxusMarkdown
